import Mathlib

/-!
Verification development for the `geo_web_apps` GIS gateway
(`backend/prediction_api/views.py`).

The Python source is shallowly embedded: pure helper functions become Lean
functions, the network world is passed in explicitly (per-endpoint outcomes,
or a query → result oracle), machine integers are `Nat`/`Int` with explicit
`% 2^32` where the source masks to 32 bits, and JSON numbers are modelled as
integers (the claims under study only involve integral values and exact
comparisons).  External library calls (`zlib.compress`) are taken as function
parameters; everything else is translated from the source.
-/

namespace GeoWebApps

/-! ## JSON values

JSON values as delivered by `request.data` / `resp.json()`.  Numbers are
modelled as integers; Python `None` and JSON `null` coincide (`dict.get` of a
missing key is modelled as `Json.null`). -/

inductive Json where
  | null
  | bool (b : Bool)
  | num (n : Int)
  | str (s : String)
  | arr (xs : List Json)
  | obj (kvs : List (String × Json))

/-- `d.get(k)` on a JSON object: first binding of `k`, `null` (Python `None`)
when the key is missing. -/
def pyGet (kvs : List (String × Json)) (k : String) : Json :=
  match kvs.find? (fun p => p.1 == k) with
  | some p => p.2
  | none => Json.null

/-- Python truthiness of a JSON value (`None`, `False`, `0`, `""`, `[]`, `{}`
are falsy). -/
def pyFalsy : Json → Bool
  | .null => true
  | .bool b => !b
  | .num n => n == 0
  | .str s => s == ""
  | .arr xs => xs.isEmpty
  | .obj kvs => kvs.isEmpty

/-- `d[k] = v` on a JSON object: replace the binding in place if the key is
present, append it otherwise (Python dict update semantics). -/
def setAssoc (kvs : List (String × Json)) (k : String) (v : Json) : List (String × Json) :=
  if kvs.any (fun p => p.1 == k) then
    kvs.map (fun p => if p.1 == k then (k, v) else p)
  else
    kvs ++ [(k, v)]

/-- `dict.update` applied binding by binding. -/
def updateAssoc (base upd : List (String × Json)) : List (String × Json) :=
  upd.foldl (fun acc p => setAssoc acc p.1 p.2) base

/-! ## Python string helpers -/

/-- Characters stripped by `str.strip()` and matched by `\s` (ASCII range). -/
def isPySpace (c : Char) : Bool :=
  c = ' ' || c = '\t' || c = '\n' || c = '\r' || c = '\x0b' || c = '\x0c'

/-- `str.strip()`. -/
def pyStrip (s : String) : String :=
  String.mk (((s.data.dropWhile isPySpace).reverse.dropWhile isPySpace).reverse)

/-- `str.lstrip()`. -/
def pyLStrip (s : String) : String :=
  String.mk (s.data.dropWhile isPySpace)

/-- `str.upper()` (ASCII model). -/
def pyUpper (s : String) : String :=
  String.mk (s.data.map Char.toUpper)

/-- `str.lower()` (ASCII model). -/
def pyLower (s : String) : String :=
  String.mk (s.data.map Char.toLower)

/-- Value of a run of decimal digits, `none` if empty or a non-digit occurs. -/
def digitsVal (ds : List Char) : Option Nat :=
  if ds.isEmpty then none
  else if ds.all Char.isDigit then
    some (ds.foldl (fun a c => a * 10 + (c.toNat - 48)) 0)
  else none

/-- Python `int(s)` for a string: optional surrounding whitespace, optional
sign, decimal digits; `none` models the `ValueError` (digit-group underscores
are not modelled — no claim involves them). -/
def pyParseInt (s : String) : Option Int :=
  match (pyStrip s).data with
  | [] => none
  | '+' :: ds => (digitsVal ds).map (fun n => (n : Int))
  | '-' :: ds => (digitsVal ds).map (fun n => -(n : Int))
  | ds => (digitsVal ds).map (fun n => (n : Int))

/-! ## Inbound WMS request helpers

Query parameters (`request.GET`) are modelled as an ordered list of key/value
pairs with first-match lookup. -/

/-- `request.GET.get(k)` — `none` when absent. -/
def lookupParam (params : List (String × String)) (k : String) : Option String :=
  (params.find? (fun p => p.1 == k)).map (fun p => p.2)

/-- Python `a or b` where `a` is `GET.get(k)` (None or a string) and `b` a
string: the empty string is falsy and falls through. -/
def pyOrS : Option String → String → String
  | some v, d => if v = "" then d else v
  | none, d => d

/-- `_get_request_type`:
`(request.GET.get("REQUEST") or request.GET.get("request") or "").upper()`. -/
def getRequestType (params : List (String × String)) : String :=
  pyUpper (pyOrS (lookupParam params "REQUEST") (pyOrS (lookupParam params "request") ""))

/-- One `try: int(request.GET.get(K, default)) except: default` block from
`_get_tile_size` (an absent parameter yields the default, which is already an
int in the source; an unparseable string yields the default). -/
def parseAxis (raw : Option String) (default : Int) : Int :=
  match raw with
  | none => default
  | some s =>
    match pyParseInt s with
    | some n => n
    | none => default

/-- `_get_tile_size`: parse `WIDTH`/`HEIGHT`, then clamp each axis with
`max(1, min(4096, ·))`. -/
def getTileSize (params : List (String × String)) (default : Int) : Int × Int :=
  let width := parseAxis (lookupParam params "WIDTH") default
  let height := parseAxis (lookupParam params "HEIGHT") default
  (max 1 (min 4096 width), max 1 (min 4096 height))

/-- Spec-side axis resolver, following §4.2 of the spec: parse as an integer,
substitute the default on parse failure, clamp into `[1, 4096]`. -/
def resolveAxis (raw : Option String) (default : Int) : Int :=
  let parsed : Int :=
    match raw with
    | none => default
    | some s => (pyParseInt s).getD default
  max 1 (min 4096 parsed)

/-! ## Claim C9 — tile-size resolver -/

theorem clamp_bounds (n : Int) :
    1 ≤ max 1 (min 4096 n) ∧ max 1 (min 4096 n) ≤ 4096 := by
  constructor <;> omega

theorem parseAxis_eq_getD (raw : Option String) (d : Int) :
    parseAxis raw d = (match raw with
      | none => d
      | some s => (pyParseInt s).getD d) := by
  cases raw with
  | none => rfl
  | some s =>
    show (match pyParseInt s with | some n => n | none => d) = (pyParseInt s).getD d
    cases pyParseInt s <;> rfl

theorem getTileSize_eq_resolveAxis (params : List (String × String)) :
    getTileSize params 256 =
      (resolveAxis (lookupParam params "WIDTH") 256,
       resolveAxis (lookupParam params "HEIGHT") 256) := by
  unfold getTileSize resolveAxis
  rw [parseAxis_eq_getD, parseAxis_eq_getD]

theorem resolveAxis_bounds (raw : Option String) :
    1 ≤ resolveAxis raw 256 ∧ resolveAxis raw 256 ≤ 4096 := by
  unfold resolveAxis
  exact clamp_bounds _

/-- C9: the tile-size resolver parses each raw axis independently as an
integer, substitutes the default 256 for an axis that fails to parse, and
clamps each axis independently into [1,4096]; `(0, 5000)` resolves to
`(1, 4096)` and `("abc", "64")` to `(256, 64)`; the result always lies in
`[1,4096]` on both axes. -/
theorem c9_tile_size_resolver :
    (∀ params : List (String × String),
      getTileSize params 256 =
        (resolveAxis (lookupParam params "WIDTH") 256,
         resolveAxis (lookupParam params "HEIGHT") 256))
    ∧ getTileSize [("WIDTH", "0"), ("HEIGHT", "5000")] 256 = (1, 4096)
    ∧ getTileSize [("WIDTH", "abc"), ("HEIGHT", "64")] 256 = (256, 64)
    ∧ (∀ params : List (String × String),
        1 ≤ (getTileSize params 256).1 ∧ (getTileSize params 256).1 ≤ 4096 ∧
        1 ≤ (getTileSize params 256).2 ∧ (getTileSize params 256).2 ≤ 4096) := by
  refine ⟨getTileSize_eq_resolveAxis, by decide, by decide, ?_⟩
  intro params
  rw [getTileSize_eq_resolveAxis]
  have hw := resolveAxis_bounds (lookupParam params "WIDTH")
  have hh := resolveAxis_bounds (lookupParam params "HEIGHT")
  exact ⟨hw.1, hw.2, hh.1, hh.2⟩

/-! ## Claim C8 — requestType derivation -/

/-- C8 counterexample: the claim says a parameter named `Request` (mixed
case) is found by a case-insensitive key lookup and yields `"GETMAP"`; the
code only consults the exact keys `REQUEST` and `request`, so the derived
requestType is `""`. -/
theorem c8_counterexample :
    getRequestType [("Request", "GetMap")] = "" ∧
    ¬ getRequestType [("Request", "GetMap")] = "GETMAP" := by
  constructor
  · rfl
  · decide

/-- C8 (amended): the derived requestType is the upper-cased value of the
exact-key `REQUEST` parameter when present with a non-empty value, else of the
exact-key `request` parameter when present with a non-empty value, else the
empty string; parameter names in any other casing are not consulted. -/
theorem c8_request_type_amended :
    ∀ (params : List (String × String)) (v : String),
      (lookupParam params "REQUEST" = some v → v ≠ "" →
        getRequestType params = pyUpper v)
      ∧ ((lookupParam params "REQUEST" = none ∨ lookupParam params "REQUEST" = some "") →
          lookupParam params "request" = some v → v ≠ "" →
          getRequestType params = pyUpper v)
      ∧ ((lookupParam params "REQUEST" = none ∨ lookupParam params "REQUEST" = some "") →
          (lookupParam params "request" = none ∨ lookupParam params "request" = some "") →
          getRequestType params = "") := by
  intro params v
  refine ⟨?_, ?_, ?_⟩
  · intro h hv
    simp [getRequestType, h, pyOrS, hv]
  · intro h1 h2 hv
    rcases h1 with h1 | h1 <;> simp [getRequestType, h1, h2, pyOrS, hv]
  · intro h1 h2
    rcases h1 with h1 | h1 <;> rcases h2 with h2 | h2 <;>
      simp [getRequestType, h1, h2, pyOrS, pyUpper]

/-- Witness for the amended C8: with only `request=GetMap` present, the
derived requestType is `GETMAP`. -/
theorem c8_request_type_amended_witness :
    getRequestType [("request", "GetMap")] = pyUpper "GetMap" :=
  (c8_request_type_amended [("request", "GetMap")] "GetMap").2.1
    (Or.inl rfl) rfl (by decide)

/-! ## PNG synthesizer (`_make_transparent_png`)

Bytes are `List Nat` (each entry a byte value).  `zlib.compress` is an
external library call and is passed in as the `deflate` parameter; everything
else — signature, chunk framing, CRC-32 — is translated from the source.
The `(width, height)`-keyed memo cache only reuses previously computed bytes,
so the function is modelled as the pure function of its inputs. -/

/-- `struct.pack("!I", n)`: four big-endian bytes (the argument is masked to
32 bits wherever the source masks, and is below `2^32` elsewhere). -/
def be32 (n : Nat) : List Nat :=
  [n / 2 ^ 24 % 256, n / 2 ^ 16 % 256, n / 2 ^ 8 % 256, n % 256]

/-- ASCII bytes of a chunk-type string. -/
def asciiBytes (s : String) : List Nat :=
  s.data.map Char.toNat

/-- One shift-and-conditionally-xor round of the reflected CRC-32 polynomial
`0xEDB88320`. -/
def crc32Round (c : Nat) : Nat :=
  if c % 2 = 1 then (c / 2) ^^^ 0xEDB88320 else c / 2

/-- Eight rounds: the CRC-32 table entry for one byte value. -/
def crc32Table (b : Nat) : Nat :=
  crc32Round (crc32Round (crc32Round (crc32Round
    (crc32Round (crc32Round (crc32Round (crc32Round b)))))))

/-- Absorb one byte into a running (pre-inverted) CRC register. -/
def crc32Step (c b : Nat) : Nat :=
  (c / 256) ^^^ crc32Table ((c ^^^ b) % 256)

/-- Fold the register over a byte string. -/
def crc32Raw (c : Nat) (bs : List Nat) : Nat :=
  bs.foldl crc32Step c

/-- `zlib.crc32(bs, start)` (with `start = 0` for the one-argument form). -/
def crc32 (bs : List Nat) (start : Nat) : Nat :=
  crc32Raw (start ^^^ 0xFFFFFFFF) bs ^^^ 0xFFFFFFFF

/-- The inner `_chunk` helper: 4-byte big-endian payload length, 4-byte type,
payload, then `zlib.crc32(data, zlib.crc32(chunk_type)) & 0xffffffff` packed
big-endian. -/
def pngChunk (ctype payload : List Nat) : List Nat :=
  be32 (payload.length % 2 ^ 32) ++ ctype ++ payload ++
    be32 (crc32 payload (crc32 ctype 0) % 2 ^ 32)

/-- The 8-byte PNG signature `b"\x89PNG\r\n\x1a\n"`. -/
def pngSignature : List Nat :=
  [0x89, 0x50, 0x4E, 0x47, 0x0D, 0x0A, 0x1A, 0x0A]

/-- Dimension normalization: `if width <= 0 or height <= 0: width, height = 1, 1`. -/
def normDims (width height : Int) : Nat × Nat :=
  if width ≤ 0 ∨ height ≤ 0 then (1, 1) else (width.toNat, height.toNat)

/-- `_make_transparent_png` (minus the pure memo cache): PNG signature, IHDR
declaring an 8-bit RGBA image, one IDAT holding the compressed raster of
`height` scanlines of filter byte 0 plus `width` transparent pixels, and an
empty IEND. -/
def makeTransparentPng (deflate : List Nat → List Nat) (width height : Int) : List Nat :=
  let wh := normDims width height
  let w := wh.1
  let h := wh.2
  let ihdr := be32 (w % 2 ^ 32) ++ be32 (h % 2 ^ 32) ++ [8, 6, 0, 0, 0]
  let row : List Nat := 0 :: List.replicate (w * 4) 0
  let raw := (List.replicate h row).flatten
  let compressed := deflate raw
  pngSignature ++ pngChunk (asciiBytes "IHDR") ihdr ++
    pngChunk (asciiBytes "IDAT") compressed ++ pngChunk (asciiBytes "IEND") []

/-- Spec-side chunk framing, following the claim's words: 4-byte big-endian
length, 4-byte type, payload, and a CRC-32 computed over type plus payload in
one pass, masked to 32 bits. -/
def specChunk (ctype payload : List Nat) : List Nat :=
  be32 (payload.length % 2 ^ 32) ++ ctype ++ payload ++
    be32 (crc32 (ctype ++ payload) 0 % 2 ^ 32)

/-- Spec-side raster: `height` scanlines, each a filter byte 0 followed by
`width * 4` zero bytes. -/
def specScanlines (w h : Nat) : List (List Nat) :=
  List.replicate h (0 :: List.replicate (w * 4) 0)

theorem xor_xor_cancel_nat (x m : Nat) : (x ^^^ m) ^^^ m = x := by
  rw [Nat.xor_assoc, Nat.xor_self, Nat.xor_zero]

/-- Chaining `zlib.crc32` over two byte strings equals one CRC over their
concatenation: the source's chunk CRC equals the spec's. -/
theorem crc32_chain (a b : List Nat) (s : Nat) :
    crc32 b (crc32 a s) = crc32 (a ++ b) s := by
  unfold crc32 crc32Raw
  rw [xor_xor_cancel_nat, List.foldl_append]

theorem pngChunk_eq_specChunk (ctype payload : List Nat) :
    pngChunk ctype payload = specChunk ctype payload := by
  unfold pngChunk specChunk
  rw [crc32_chain]

/-! ## Claim C3 — transparent PNG structure -/

/-- C3: for any pair of integer dimensions, `_make_transparent_png` emits
exactly the PNG signature, an IHDR chunk declaring an 8-bit-per-channel RGBA
image (color type 6, no interlace), one IDAT chunk whose decompressed payload
is `height` scanlines of a 0 filter byte followed by `width * 4` zero bytes,
and an empty IEND chunk, each chunk framed as big-endian length, type,
payload, and CRC-32 over type plus payload masked to 32 bits; non-positive
dimensions are normalized to 1×1, so the encoded raster is never empty. -/
theorem c3_transparent_png (deflate inflate : List Nat → List Nat)
    (hround : ∀ bs, inflate (deflate bs) = bs) (width height : Int) :
    makeTransparentPng deflate width height =
      pngSignature ++
        specChunk (asciiBytes "IHDR")
          (be32 ((normDims width height).1 % 2 ^ 32) ++
           be32 ((normDims width height).2 % 2 ^ 32) ++ [8, 6, 0, 0, 0]) ++
        specChunk (asciiBytes "IDAT")
          (deflate (specScanlines (normDims width height).1 (normDims width height).2).flatten) ++
        specChunk (asciiBytes "IEND") []
    ∧ inflate (deflate (specScanlines (normDims width height).1 (normDims width height).2).flatten) =
        (specScanlines (normDims width height).1 (normDims width height).2).flatten
    ∧ (specScanlines (normDims width height).1 (normDims width height).2).length =
        (normDims width height).2
    ∧ (∀ line ∈ specScanlines (normDims width height).1 (normDims width height).2,
        line = 0 :: List.replicate ((normDims width height).1 * 4) 0)
    ∧ 1 ≤ (normDims width height).1 ∧ 1 ≤ (normDims width height).2
    ∧ (specScanlines (normDims width height).1 (normDims width height).2).flatten ≠ []
    ∧ ((width ≤ 0 ∨ height ≤ 0) → normDims width height = (1, 1)) := by
  have h1 : 1 ≤ (normDims width height).1 ∧ 1 ≤ (normDims width height).2 := by
    unfold normDims
    by_cases h : width ≤ 0 ∨ height ≤ 0
    · simp [h]
    · push_neg at h
      simp [h.1, h.2, not_le.mpr h.1, not_le.mpr h.2]
      constructor <;> omega
  refine ⟨?_, hround _, ?_, ?_, h1.1, h1.2, ?_, ?_⟩
  · simp only [makeTransparentPng, specScanlines, pngChunk_eq_specChunk]
  · unfold specScanlines
    exact List.length_replicate _ _
  · intro line hline
    unfold specScanlines at hline
    exact List.eq_of_mem_replicate hline
  · unfold specScanlines
    obtain ⟨hw, hh⟩ := h1
    cases hh' : (normDims width height).2 with
    | zero => omega
    | succ n =>
      simp [List.flatten]
  · intro h
    unfold normDims
    simp [h]

/-- Witness for C3: instantiated with the identity as the compression codec
and degenerate dimensions `(0, 5)`, which normalize to `1×1`. -/
theorem c3_transparent_png_witness :
    makeTransparentPng (fun bs => bs) 0 5 =
      pngSignature ++
        specChunk (asciiBytes "IHDR")
          (be32 ((normDims 0 5).1 % 2 ^ 32) ++
           be32 ((normDims 0 5).2 % 2 ^ 32) ++ [8, 6, 0, 0, 0]) ++
        specChunk (asciiBytes "IDAT")
          ((fun bs => bs) ((specScanlines (normDims 0 5).1 (normDims 0 5).2).flatten)) ++
        specChunk (asciiBytes "IEND") []
    ∧ (fun bs => bs) ((fun bs => bs) ((specScanlines (normDims 0 5).1 (normDims 0 5).2).flatten)) =
        (specScanlines (normDims 0 5).1 (normDims 0 5).2).flatten
    ∧ (specScanlines (normDims 0 5).1 (normDims 0 5).2).length = (normDims 0 5).2
    ∧ (∀ line ∈ specScanlines (normDims 0 5).1 (normDims 0 5).2,
        line = 0 :: List.replicate ((normDims 0 5).1 * 4) 0)
    ∧ 1 ≤ (normDims 0 5).1 ∧ 1 ≤ (normDims 0 5).2
    ∧ (specScanlines (normDims 0 5).1 (normDims 0 5).2).flatten ≠ []
    ∧ (((0 : Int) ≤ 0 ∨ (5 : Int) ≤ 0) → normDims 0 5 = (1, 1)) :=
  c3_transparent_png (fun bs => bs) (fun bs => bs) (fun _ => rfl) 0 5

/-! ## Overpass query engine (`_run_overpass_query`)

For one query, the network world is the ordered list of configured endpoints
paired with the outcome each would produce: either an HTTP response (status,
body text, and the result of `resp.json()` — `none` models the `ValueError`)
or a raised `requests.exceptions.RequestException`.  `resp.ok` is
`status_code < 400`. -/

inductive OverpassAttempt where
  | resp (status : Nat) (text : String) (json : Option Json)
  | exc (msg : String)

/-- `re.sub(r"\s+", " ", s)`: collapse every whitespace run to one space. -/
def wsCollapseAux : List Char → List Char
  | [] => []
  | [c] => [if isPySpace c then ' ' else c]
  | c :: d :: rest =>
    if isPySpace c && isPySpace d then wsCollapseAux (d :: rest)
    else (if isPySpace c then ' ' else c) :: wsCollapseAux (d :: rest)

def wsCollapse (s : String) : String :=
  String.mk (wsCollapseAux s.data)

/-- `re.sub(r"\s+", " ", text).strip()[:120]` — the bounded diagnostic
snippet of an upstream body. -/
def snippetOf (s : String) : String :=
  (pyStrip (wsCollapse s)).take 120

/-- `text.lstrip().startswith(("{", "["))`. -/
def startsBracket (s : String) : Bool :=
  (pyLStrip s).startsWith "\x7b" || (pyLStrip s).startsWith "["

/-- Outcome of one endpoint attempt: the parsed JSON on HTTP success with a
JSON body, otherwise the diagnostic string appended to `endpoint_errors`. -/
def attemptResult (a : String × OverpassAttempt) : Except String Json :=
  match a.2 with
  | .exc msg => .error (a.1 ++ " failed: " ++ msg)
  | .resp status text json =>
    if status < 400 then
      match json with
      | some j => .ok j
      | none =>
        if startsBracket text then .error (a.1 ++ " returned invalid JSON payload.")
        else .error (a.1 ++ " returned non-JSON payload: " ++ snippetOf text)
    else .error (a.1 ++ " returned " ++ toString status ++ ": " ++ snippetOf text)

/-- `sep.join(xs)` (Python `str.join`). -/
def joinSep (sep : String) : List String → String
  | [] => ""
  | [x] => x
  | x :: y :: rest => x ++ sep ++ joinSep sep (y :: rest)

/-- The aggregate `RuntimeError` message raised when no endpoint succeeded. -/
def allFailedMsg (errs : List String) : String :=
  if errs.isEmpty then "All Overpass endpoints failed."
  else "All Overpass endpoints failed. " ++ joinSep " | " errs

/-- The endpoint loop of `_run_overpass_query`, carrying `endpoint_errors`. -/
def runOverpassGo : List (String × OverpassAttempt) → List String → Except String Json
  | [], errs => .error (allFailedMsg errs)
  | a :: rest, errs =>
    match attemptResult a with
    | .ok j => .ok j
    | .error e => runOverpassGo rest (errs ++ [e])

/-- `_run_overpass_query`, as a function of the per-endpoint world. -/
def runOverpassQuery (world : List (String × OverpassAttempt)) : Except String Json :=
  runOverpassGo world []

/-- `true` exactly when the attempt is skipped (HTTP error, unparseable body,
or raised exception). -/
def attemptFails (a : String × OverpassAttempt) : Bool :=
  match a.2 with
  | .exc _ => true
  | .resp status _ json => !(decide (status < 400) && json.isSome)

/-- The diagnostic of a failed attempt (`""` for a successful one). -/
def attemptDiag (a : String × OverpassAttempt) : String :=
  match attemptResult a with
  | .ok _ => ""
  | .error e => e

theorem attemptFails_false_ok (a : String × OverpassAttempt)
    (h : attemptFails a = false) : ∃ j, attemptResult a = .ok j := by
  rcases a with ⟨ep, att⟩
  cases att with
  | exc m => simp [attemptFails] at h
  | resp status text json =>
    simp only [attemptFails, Bool.not_eq_false', Bool.and_eq_true, decide_eq_true_eq,
      Option.isSome_iff_exists] at h
    obtain ⟨hs, j, hj⟩ := h
    exact ⟨j, by simp [attemptResult, hs, hj]⟩

theorem attemptFails_true_error (a : String × OverpassAttempt)
    (h : attemptFails a = true) : attemptResult a = .error (attemptDiag a) := by
  rcases a with ⟨ep, att⟩
  cases att with
  | exc m => simp [attemptResult, attemptDiag]
  | resp status text json =>
    simp only [attemptFails, Bool.not_eq_true', Bool.and_eq_false_iff,
      decide_eq_false_iff_not, Nat.not_lt] at h
    rcases h with h | h
    · simp [attemptResult, attemptDiag, Nat.not_lt.mpr h]
    · cases json with
      | none =>
        simp only [attemptResult, attemptDiag]
        by_cases hs : status < 400
        · simp only [hs, if_true]
          split <;> rfl
        · simp [hs]
      | some j => simp [Option.isSome] at h

/-! ## Claim C2 — sequential failover -/

/-- C2: `_run_overpass_query` tries endpoints strictly in list order and
returns the parsed JSON of the first endpoint whose response is an HTTP
success with a JSON-parseable body; earlier failing endpoints are skipped and
nothing after the first success matters (it is never contacted). -/
theorem c2_overpass_failover
    (pre tail : List (String × OverpassAttempt)) (ep : String)
    (status : Nat) (text : String) (j : Json)
    (hpre : ∀ a ∈ pre, attemptFails a = true) (hok : status < 400) :
    runOverpassQuery (pre ++ (ep, .resp status text (some j)) :: tail) = .ok j := by
  suffices h : ∀ errs, runOverpassGo (pre ++ (ep, .resp status text (some j)) :: tail) errs = .ok j by
    exact h []
  induction pre with
  | nil =>
    intro errs
    simp [runOverpassGo, attemptResult, hok]
  | cons a rest ih =>
    intro errs
    have ha := attemptFails_true_error a (hpre a (by simp))
    simp only [List.cons_append, runOverpassGo, ha]
    exact ih (fun b hb => hpre b (by simp [hb])) _

/-- Witness for C2: mirror 1 answers HTTP 500, mirror 2 returns valid JSON;
the engine returns mirror 2's parsed result. -/
theorem c2_overpass_failover_witness :
    runOverpassQuery
      [("https://overpass-api.de/api/interpreter", .resp 500 "boom" none),
       ("https://overpass.kumi.systems/api/interpreter", .resp 200 "\x7b\x7d" (some (.obj [])))] =
      .ok (.obj []) :=
  c2_overpass_failover
    [("https://overpass-api.de/api/interpreter", .resp 500 "boom" none)] []
    "https://overpass.kumi.systems/api/interpreter" 200 "\x7b\x7d" (.obj [])
    (by intro a ha; simp at ha; rw [ha]; rfl) (by decide)

/-! ## Claim C7 — aggregate failure diagnostics -/

theorem mem_joinSep_infix (sep : String) (xs : List String) (x : String)
    (hx : x ∈ xs) : ∃ p q, joinSep sep xs = p ++ x ++ q := by
  induction xs with
  | nil => cases hx
  | cons y ys ih =>
    cases ys with
    | nil =>
      simp only [List.mem_singleton] at hx
      exact ⟨"", "", by simp [joinSep, hx]⟩
    | cons z zs =>
      rcases List.mem_cons.mp hx with h | h
      · refine ⟨"", sep ++ joinSep sep (z :: zs), ?_⟩
        simp [joinSep, h, String.append_assoc]
      · obtain ⟨p, q, hpq⟩ := ih h
        refine ⟨y ++ sep ++ p, q, ?_⟩
        simp [joinSep, hpq, String.append_assoc]

theorem runOverpassGo_all_fail (world : List (String × OverpassAttempt))
    (hall : ∀ a ∈ world, attemptFails a = true) :
    ∀ errs, runOverpassGo world errs = .error (allFailedMsg (errs ++ world.map attemptDiag)) := by
  induction world with
  | nil => intro errs; simp [runOverpassGo]
  | cons a rest ih =>
    intro errs
    have ha := attemptFails_true_error a (hall a (by simp))
    simp only [runOverpassGo, ha]
    rw [ih (fun b hb => hall b (by simp [hb]))]
    simp

/-- C7: when every configured endpoint fails, the engine raises an aggregate
error whose message is the fixed prefix plus every per-endpoint diagnostic
joined by `" | "`, one entry per endpoint in order, and each endpoint's
diagnostic occurs as a substring of the message — earlier errors are never
discarded. -/
theorem c7_overpass_aggregate_error (world : List (String × OverpassAttempt))
    (hne : world ≠ []) (hall : ∀ a ∈ world, attemptFails a = true) :
    ∃ msg, runOverpassQuery world = .error msg ∧
      msg = "All Overpass endpoints failed. " ++
        joinSep " | " (world.map attemptDiag) ∧
      (world.map attemptDiag).length = world.length ∧
      ∀ d ∈ world.map attemptDiag, ∃ p q, msg = p ++ d ++ q := by
  refine ⟨allFailedMsg (world.map attemptDiag), ?_, ?_, by simp, ?_⟩
  · have h := runOverpassGo_all_fail world hall []
    simpa [runOverpassQuery] using h
  · have : world.map attemptDiag ≠ [] := by
      intro h
      exact hne (List.map_eq_nil_iff.mp h)
    simp [allFailedMsg, List.isEmpty_iff, this]
  · intro d hd
    obtain ⟨p, q, hpq⟩ := mem_joinSep_infix " | " (world.map attemptDiag) d hd
    refine ⟨"All Overpass endpoints failed. " ++ p, q, ?_⟩
    have : world.map attemptDiag ≠ [] := by
      intro h
      exact hne (List.map_eq_nil_iff.mp h)
    simp [allFailedMsg, List.isEmpty_iff, this, hpq, String.append_assoc]

/-- Witness for C7: two mirrors, one HTTP 500 and one raising a connection
error; the aggregate message carries both diagnostics. -/
theorem c7_overpass_aggregate_error_witness :
    ∃ msg,
      runOverpassQuery
        [("https://overpass-api.de/api/interpreter", .resp 500 "Server Error" none),
         ("https://overpass.kumi.systems/api/interpreter", .exc "connection refused")] =
        .error msg ∧
      msg = "All Overpass endpoints failed. " ++
        joinSep " | "
          (([("https://overpass-api.de/api/interpreter",
              OverpassAttempt.resp 500 "Server Error" none),
             ("https://overpass.kumi.systems/api/interpreter",
              OverpassAttempt.exc "connection refused")]).map attemptDiag) ∧
      (([("https://overpass-api.de/api/interpreter",
          OverpassAttempt.resp 500 "Server Error" none),
         ("https://overpass.kumi.systems/api/interpreter",
          OverpassAttempt.exc "connection refused")]).map attemptDiag).length =
        ([("https://overpass-api.de/api/interpreter",
           OverpassAttempt.resp 500 "Server Error" none),
          ("https://overpass.kumi.systems/api/interpreter",
           OverpassAttempt.exc "connection refused")] :
            List (String × OverpassAttempt)).length ∧
      ∀ d ∈ ([("https://overpass-api.de/api/interpreter",
               OverpassAttempt.resp 500 "Server Error" none),
              ("https://overpass.kumi.systems/api/interpreter",
               OverpassAttempt.exc "connection refused")]).map attemptDiag,
        ∃ p q, msg = p ++ d ++ q :=
  c7_overpass_aggregate_error
    [("https://overpass-api.de/api/interpreter", .resp 500 "Server Error" none),
     ("https://overpass.kumi.systems/api/interpreter", .exc "connection refused")]
    (List.cons_ne_nil _ _)
    (by
      intro a ha
      simp only [List.mem_cons, List.mem_singleton, List.not_mem_nil, or_false] at ha
      rcases ha with h | h <;> rw [h] <;> rfl)

/-! ## Overpass → GeoJSON translator (`_overpass_to_feature_collection`)

Overpass elements are JSON objects, modelled as association lists.  The
Python `isinstance(x, (int, float))` check is modelled as "is a JSON number"
(coordinate values in Overpass payloads are numbers; Python would also admit
booleans, a subtype of `int`, which do not occur as coordinates).  A truthy
non-container in a container position (`tags`, `geometry`) would raise in
Python and does not occur in Overpass payloads; it is modelled as the empty
container. -/

inductive Geometry where
  | point (lon lat : Int)
  | lineString (coords : List (Int × Int))
  | polygon (ring : List (Int × Int))
deriving DecidableEq

structure Feature where
  geometry : Geometry
  props : List (String × Json)

structure FeatureCollection where
  features : List Feature

/-- `dict(element.get("tags") or {})`. -/
def tagsOf (element : List (String × Json)) : List (String × Json) :=
  match pyGet element "tags" with
  | .obj kvs => kvs
  | _ => []

/-- Tags updated with the reserved `osm_id` / `osm_type` / `category` keys. -/
def elementProps (element : List (String × Json)) (osmType category : String) :
    List (String × Json) :=
  updateAssoc (tagsOf element)
    [("osm_id", pyGet element "id"), ("osm_type", .str osmType),
     ("category", .str category)]

/-- The way-branch coordinate list: `[[pt.get("lon"), pt.get("lat")] for pt in
geom if isinstance(pt.get("lon"), (int, float)) and isinstance(pt.get("lat"),
(int, float))]`. -/
def wayCoords (element : List (String × Json)) : List (Int × Int) :=
  let geom : List Json :=
    match pyGet element "geometry" with
    | .arr xs => xs
    | _ => []
  geom.filterMap (fun pt =>
    match pt with
    | .obj kvs =>
      match pyGet kvs "lon", pyGet kvs "lat" with
      | .num lo, .num la => some (lo, la)
      | _, _ => none
    | _ => none)

/-- One loop iteration of `_overpass_to_feature_collection`: the feature the
element contributes, if any. -/
def elementFeature (category : String) (element : List (String × Json)) : Option Feature :=
  match pyGet element "type" with
  | .str t =>
    if t = "node" then
      match pyGet element "lat", pyGet element "lon" with
      | .num la, .num lo => some ⟨.point lo la, elementProps element "node" category⟩
      | _, _ => none
    else if t = "way" then
      let coords := wayCoords element
      if coords.length < 2 then none
      else
        let isClosed := decide (4 ≤ coords.length) && (coords.head? == coords.getLast?)
        some ⟨if isClosed then .polygon coords else .lineString coords,
              elementProps element "way" category⟩
    else none
  | _ => none

/-- `_overpass_to_feature_collection`. -/
def overpassToFeatureCollection (elements : List (List (String × Json)))
    (category : String) : FeatureCollection :=
  ⟨elements.filterMap (elementFeature category)⟩

/-! Spec-side translator, following the claim's words. -/

/-- "numeric" in the claim: a JSON number. -/
def specIsNumber : Json → Bool
  | .num _ => true
  | _ => false

def numOf : Json → Int
  | .num n => n
  | _ => 0

/-- A usable vertex of a way's `geometry` array: an object with numeric
`lon`/`lat`; non-numeric vertices are dropped individually. -/
def specVertex : Json → Option (Int × Int)
  | .obj kvs =>
    match pyGet kvs "lon", pyGet kvs "lat" with
    | .num lo, .num la => some (lo, la)
    | _, _ => none
  | _ => none

def specUsableVertices (el : List (String × Json)) : List (Int × Int) :=
  let geom : List Json :=
    match pyGet el "geometry" with
    | .arr xs => xs
    | _ => []
  geom.filterMap specVertex

/-- Spec-side per-element translation: a node yields a Point exactly when
both `lat` and `lon` are numeric; a way keeps its usable vertices, is skipped
below 2 of them, and is a single-ring Polygon exactly when at least 4 remain
and the first and last coordinate pairs are equal, a LineString otherwise;
any other element type yields nothing. -/
def specElementFeature (category : String) (el : List (String × Json)) : Option Feature :=
  match pyGet el "type" with
  | .str t =>
    if t = "node" then
      if specIsNumber (pyGet el "lat") && specIsNumber (pyGet el "lon") then
        some ⟨.point (numOf (pyGet el "lon")) (numOf (pyGet el "lat")),
              elementProps el "node" category⟩
      else none
    else if t = "way" then
      let vs := specUsableVertices el
      if vs.length < 2 then none
      else if 4 ≤ vs.length ∧ vs.head? = vs.getLast? then
        some ⟨.polygon vs, elementProps el "way" category⟩
      else
        some ⟨.lineString vs, elementProps el "way" category⟩
    else none
  | _ => none

theorem wayCoords_eq_specUsableVertices (el : List (String × Json)) :
    wayCoords el = specUsableVertices el := by
  unfold wayCoords specUsableVertices
  congr 1

theorem elementFeature_eq_spec (category : String) (el : List (String × Json)) :
    elementFeature category el = specElementFeature category el := by
  unfold elementFeature specElementFeature
  cases htype : pyGet el "type" with
  | str t =>
    by_cases hn : t = "node"
    · simp only [hn, if_true]
      cases hlat : pyGet el "lat" <;> cases hlon : pyGet el "lon" <;>
        simp [specIsNumber, numOf]
    · by_cases hw : t = "way"
      · simp only [hn, hw, if_false, if_true]
        rw [wayCoords_eq_specUsableVertices]
        by_cases hlen : (specUsableVertices el).length < 2
        · simp [hlen]
        · simp only [hlen, if_false]
          by_cases hcl : 4 ≤ (specUsableVertices el).length ∧
              (specUsableVertices el).head? = (specUsableVertices el).getLast?
          · simp [hcl, hcl.1, hcl.2]
          · have : (decide (4 ≤ (specUsableVertices el).length) &&
                ((specUsableVertices el).head? == (specUsableVertices el).getLast?)) = false := by
              rw [Bool.and_eq_false_iff]
              by_cases h4 : 4 ≤ (specUsableVertices el).length
              · right
                rw [beq_eq_false_iff_ne]
                intro heq
                exact hcl ⟨h4, heq⟩
              · left
                simpa using h4
            simp [this, hcl]
      · simp [hn, hw]
  | null => rfl
  | bool b => rfl
  | num n => rfl
  | arr xs => rfl
  | obj kvs => rfl

/-! ## Claim C5 — translator classification -/

/-- C5: the translator agrees everywhere with the spec-side description —
nodes yield Points exactly when both coordinates are numeric and are silently
skipped otherwise; ways keep usable vertices only, are skipped below 2
vertices, and are classified Polygon exactly on a closed ring of at least 4
vertices, LineString otherwise; other element types yield nothing.  The
ring-closure examples: vertices `(0,0),(1,0),(1,1),(0,0)` give a Polygon,
`(0,0),(1,0),(1,1)` give a LineString, and a node with a non-numeric `lat`
yields no feature. -/
theorem c5_translator :
    (∀ (elements : List (List (String × Json))) (category : String),
      (overpassToFeatureCollection elements category).features =
        elements.filterMap (specElementFeature category))
    ∧ (overpassToFeatureCollection
        [[("type", .str "way"),
          ("geometry", .arr
            [.obj [("lat", .num 0), ("lon", .num 0)],
             .obj [("lat", .num 1), ("lon", .num 0)],
             .obj [("lat", .num 1), ("lon", .num 1)],
             .obj [("lat", .num 0), ("lon", .num 0)]])]] "roads").features =
      [⟨.polygon [(0, 0), (0, 1), (1, 1), (0, 0)],
        [("osm_id", .null), ("osm_type", .str "way"), ("category", .str "roads")]⟩]
    ∧ (overpassToFeatureCollection
        [[("type", .str "way"),
          ("geometry", .arr
            [.obj [("lat", .num 0), ("lon", .num 0)],
             .obj [("lat", .num 1), ("lon", .num 0)],
             .obj [("lat", .num 1), ("lon", .num 1)]])]] "roads").features =
      [⟨.lineString [(0, 0), (0, 1), (1, 1)],
        [("osm_id", .null), ("osm_type", .str "way"), ("category", .str "roads")]⟩]
    ∧ (overpassToFeatureCollection
        [[("type", .str "node"), ("lat", .str "bad"), ("lon", .num 3)]] "x").features = [] := by
  refine ⟨?_, rfl, rfl, rfl⟩
  intro elements category
  unfold overpassToFeatureCollection
  simp only
  congr 1
  funext el
  exact elementFeature_eq_spec category el

/-! ## `osm_query`

The view is modelled as a function of the JSON request body and a
`runQ : query → Except error json` oracle standing for `_run_overpass_query`
(whose own behavior over the endpoint world is modelled above).  Responses
keep their structure instead of being re-serialized to JSON. -/

/-- `d.get(k, default)` on a JSON object. -/
def pyGetD (kvs : List (String × Json)) (k : String) (d : Json) : Json :=
  match kvs.find? (fun p => p.1 == k) with
  | some p => p.2
  | none => d

/-- Python `int(x)` on a JSON value: `none` models the raised
`TypeError`/`ValueError` (numeric strings parse via the integral model). -/
def pyIntOf : Json → Option Int
  | .num n => some n
  | .bool b => some (if b then 1 else 0)
  | .str s => pyParseInt s
  | _ => none

/-- Python `float(v)` on a JSON value: `none` models the raised
`TypeError`/`ValueError` (JSON numbers are modelled integral, so numeric
strings parse via the integer parser). -/
def pyFloat : Json → Option Int
  | .num n => some n
  | .bool b => some (if b then 1 else 0)
  | .str s => pyParseInt s
  | _ => none

/-- Python `str(v)`.  Container renderings are abstracted: they are only ever
compared against the fixed mode keywords, which they never equal. -/
def pyStr : Json → String
  | .str s => s
  | .null => "None"
  | .bool true => "True"
  | .bool false => "False"
  | .num n => toString n
  | .arr _ => "[...]"
  | .obj _ => "\x7b...\x7d"

/-- Python `repr(float(n))` for the integral model: `f"{10.0}"` is `"10.0"`. -/
def floatStr (n : Int) : String := toString n ++ ".0"

/-- `bbox_expr = f"{min_lat},{min_lon},{max_lat},{max_lon}"` — Overpass's
south,west,north,east ordering. -/
def bboxExprOf (minLon minLat maxLon maxLat : Int) : String :=
  floatStr minLat ++ "," ++ floatStr minLon ++ "," ++ floatStr maxLat ++ "," ++ floatStr maxLon

/-- The bbox validation prefix of `osm_query`: shape check, `float()`
conversion, range check, min<max check — each with its 400 error message. -/
def validateBbox (bv : Json) : Except String (Int × Int × Int × Int) :=
  match bv with
  | .arr [a, b, c, d] =>
    match pyFloat a, pyFloat b, pyFloat c, pyFloat d with
    | some minLon, some minLat, some maxLon, some maxLat =>
      if -180 ≤ minLon ∧ minLon ≤ 180 ∧ -180 ≤ maxLon ∧ maxLon ≤ 180 ∧
         -90 ≤ minLat ∧ minLat ≤ 90 ∧ -90 ≤ maxLat ∧ maxLat ≤ 90 then
        if minLon ≥ maxLon ∨ minLat ≥ maxLat then
          .error "bbox min values must be smaller than max values."
        else
          .ok (minLon, minLat, maxLon, maxLat)
      else
        .error "bbox coordinates are out of range."
    | _, _, _, _ => .error "bbox values must be numeric."
  | _ => .error "bbox must be [minLon, minLat, maxLon, maxLat]."

/-- `_OSM_DATASETS`, in insertion order. -/
def OSM_DATASETS : List (String × String) :=
  [("roads", "way[\"highway\"]"),
   ("buildings", "way[\"building\"]"),
   ("amenities", "node[\"amenity\"];way[\"amenity\"]"),
   ("water", "way[\"waterway\"];way[\"natural\"=\"water\"];way[\"landuse\"=\"reservoir\"]"),
   ("green", "way[\"leisure\"=\"park\"];way[\"landuse\"=\"grass\"];way[\"landuse\"=\"forest\"]")]

/-- The availability-mode count query for one dataset filter. -/
def availQuery (filterExpr bexpr : String) : String :=
  "[out:json][timeout:25];(" ++ filterExpr ++ "(" ++ bexpr ++ "););out count;"

/-- The fetch-mode geometry query for one dataset filter. -/
def fetchQuery (filterExpr bexpr : String) : String :=
  "[out:json][timeout:50];(" ++ filterExpr ++ "(" ++ bexpr ++ "););out body geom;"

/-- `_extract_overpass_count`: integer `total` tag of the first element,
0 on any parse irregularity. -/
def extractOverpassCount (j : Json) : Int :=
  match j with
  | .obj kvs =>
    match pyGet kvs "elements" with
    | .arr (first :: _) =>
      let firstObj : List (String × Json) :=
        match first with
        | .obj f => f
        | _ => []
      let tags : List (String × Json) :=
        match pyGet firstObj "tags" with
        | .obj t => t
        | _ => []
      (pyIntOf (pyGetD tags "total" (.num 0))).getD 0
    | _ => 0
  | _ => 0

structure DatasetEntry where
  key : String
  count : Option Int
  errText : Option String
deriving DecidableEq

inductive OsmBody where
  | errOnly (msg : String)
  | availFail (msg : String) (datasets : List DatasetEntry)
  | avail (datasets : List DatasetEntry) (partFlag : Bool)
  | fetched (features : List Feature) (categories : List String)

structure OsmResp where
  status : Nat
  body : OsmBody

/-- `true` exactly when `_run_overpass_query` raised for this query. -/
def isErr : Except String Json → Bool
  | .error _ => true
  | .ok _ => false

/-- One iteration of the availability loop. -/
def availEntry (runQ : String → Except String Json) (bexpr : String)
    (kf : String × String) : DatasetEntry :=
  match runQ (availQuery kf.2 bexpr) with
  | .ok j => ⟨kf.1, some (extractOverpassCount j), none⟩
  | .error e => ⟨kf.1, none, some e⟩

def availabilityDatasets (runQ : String → Except String Json) (bexpr : String) :
    List DatasetEntry :=
  OSM_DATASETS.map (availEntry runQ bexpr)

/-- The availability branch: 502 when no category produced a count,
otherwise 200 with `partial = available_count != len(datasets)`. -/
def availabilityRespond (runQ : String → Except String Json) (bexpr : String) : OsmResp :=
  let datasets := availabilityDatasets runQ bexpr
  let availableCount := (datasets.filter (fun d => d.count.isSome)).length
  if availableCount = 0 then
    ⟨502, .availFail "OSM availability failed for all datasets." datasets⟩
  else
    ⟨200, .avail datasets (decide (availableCount ≠ datasets.length))⟩

/-- Dataset filter of a known category key. -/
def lookupDataset (k : String) : String :=
  match OSM_DATASETS.find? (fun kf => kf.1 == k) with
  | some kf => kf.2
  | none => ""

/-- `json_data.get("elements") if isinstance(json_data, dict) else []`,
with the element objects extracted (a non-object entry would raise in Python
and does not occur in Overpass payloads; it is modelled as skipped). -/
def elementsOf (j : Json) : List (List (String × Json)) :=
  match j with
  | .obj kvs =>
    match pyGet kvs "elements" with
    | .arr xs => xs.filterMap (fun e =>
        match e with
        | .obj kv => some kv
        | _ => none)
    | _ => []
  | _ => []

/-- The fetch loop over the selected categories: first failure aborts. -/
def fetchFeatures (runQ : String → Except String Json) (bexpr : String) :
    List String → Except String (List Feature)
  | [] => .ok []
  | k :: rest =>
    match runQ (fetchQuery (lookupDataset k) bexpr) with
    | .error e => .error e
    | .ok j =>
      match fetchFeatures runQ bexpr rest with
      | .error e => .error e
      | .ok feats => .ok ((overpassToFeatureCollection (elementsOf j) k).features ++ feats)

/-- The fetch branch: category-list validation, all-or-nothing query loop. -/
def fetchRespond (runQ : String → Except String Json) (bexpr : String)
    (categories : Json) : OsmResp :=
  match categories with
  | .arr cats =>
    if cats.isEmpty then ⟨400, .errOnly "categories must be a non-empty list."⟩
    else
      let selected := cats.filterMap (fun c =>
        match c with
        | .str s => if OSM_DATASETS.any (fun kf => kf.1 == s) then some s else none
        | _ => none)
      if selected.isEmpty then ⟨400, .errOnly "No valid categories selected."⟩
      else
        match fetchFeatures runQ bexpr selected with
        | .ok feats => ⟨200, .fetched feats selected⟩
        | .error e => ⟨502, .errOnly ("OSM fetch failed: " ++ e)⟩
  | _ => ⟨400, .errOnly "categories must be a non-empty list."⟩

/-- `mode = str(payload.get("mode") or "availability").strip().lower()`. -/
def osmMode (payload : List (String × Json)) : String :=
  let mv := pyGet payload "mode"
  pyLower (pyStrip (if pyFalsy mv then "availability" else pyStr mv))

/-- `osm_query` after the three reads of the body (mode, bbox, categories):
bbox is validated before the mode dispatch, exactly as in the source. -/
def osmQueryCore (runQ : String → Except String Json) (mode : String)
    (bboxJson categoriesJson : Json) : OsmResp :=
  let categories := if pyFalsy categoriesJson then Json.arr [] else categoriesJson
  match validateBbox bboxJson with
  | .error e => ⟨400, .errOnly e⟩
  | .ok (minLon, minLat, maxLon, maxLat) =>
    let bexpr := bboxExprOf minLon minLat maxLon maxLat
    if mode = "availability" then availabilityRespond runQ bexpr
    else if mode = "fetch" then fetchRespond runQ bexpr categories
    else ⟨400, .errOnly "mode must be 'availability' or 'fetch'."⟩

/-- `osm_query`: a non-object body is replaced by `{}`. -/
def osmQuery (runQ : String → Except String Json) (payloadJson : Json) : OsmResp :=
  let payload : List (String × Json) :=
    match payloadJson with
    | .obj kvs => kvs
    | _ => []
  osmQueryCore runQ (osmMode payload) (pyGet payload "bbox") (pyGet payload "categories")

/-! ## Claim C4 — availability aggregation -/

theorem availEntry_count_isSome (runQ : String → Except String Json) (bexpr : String)
    (kf : String × String) :
    (availEntry runQ bexpr kf).count.isSome = !(isErr (runQ (availQuery kf.2 bexpr))) := by
  unfold availEntry isErr
  cases runQ (availQuery kf.2 bexpr) <;> rfl

theorem availCount_eq (runQ : String → Except String Json) (bexpr : String) :
    ((availabilityDatasets runQ bexpr).filter (fun d => d.count.isSome)).length =
      (OSM_DATASETS.filter
        (fun kf => !(isErr (runQ (availQuery kf.2 bexpr))))).length := by
  unfold availabilityDatasets
  rw [List.filter_map]
  rw [List.length_map]
  apply congrArg
  apply List.filter_congr
  intro kf _
  exact availEntry_count_isSome runQ bexpr kf

theorem availAllFail_iff (runQ : String → Except String Json) (bexpr : String) :
    (((availabilityDatasets runQ bexpr).filter (fun d => d.count.isSome)).length = 0) ↔
      ∀ kf ∈ OSM_DATASETS, isErr (runQ (availQuery kf.2 bexpr)) = true := by
  rw [availCount_eq, List.length_eq_zero, List.filter_eq_nil_iff]
  constructor
  · intro h kf hkf
    have := h kf hkf
    simpa using this
  · intro h kf hkf
    simp [h kf hkf]

theorem availSome_iff (runQ : String → Except String Json) (bexpr : String) :
    (((availabilityDatasets runQ bexpr).filter (fun d => d.count.isSome)).length ≠
        (availabilityDatasets runQ bexpr).length) ↔
      ∃ kf ∈ OSM_DATASETS, isErr (runQ (availQuery kf.2 bexpr)) = true := by
  rw [availCount_eq]
  have hlen : (availabilityDatasets runQ bexpr).length = OSM_DATASETS.length := by
    simp [availabilityDatasets]
  rw [hlen, Ne, List.filter_length_eq_length]
  constructor
  · intro h
    by_contra hc
    push_neg at hc
    apply h
    intro kf hkf
    have := hc kf hkf
    simp [Bool.not_eq_true] at this ⊢
    exact this
  · rintro ⟨kf, hkf, hq⟩ hall
    have := hall kf hkf
    rw [hq] at this
    simp at this

theorem availabilityRespond_status (runQ : String → Except String Json) (bexpr : String) :
    (availabilityRespond runQ bexpr).status =
      if ((availabilityDatasets runQ bexpr).filter (fun d => d.count.isSome)).length = 0
      then 502 else 200 := by
  unfold availabilityRespond
  by_cases h :
      ((availabilityDatasets runQ bexpr).filter (fun d => d.count.isSome)).length = 0 <;>
    simp [h]

theorem availabilityRespond_body_of_ne (runQ : String → Except String Json) (bexpr : String)
    (h : ((availabilityDatasets runQ bexpr).filter (fun d => d.count.isSome)).length ≠ 0) :
    (availabilityRespond runQ bexpr).body =
      .avail (availabilityDatasets runQ bexpr)
        (decide (((availabilityDatasets runQ bexpr).filter
            (fun d => d.count.isSome)).length ≠ (availabilityDatasets runQ bexpr).length)) := by
  unfold availabilityRespond
  simp [h]

/-- C4: in availability mode one count query runs per fixed dataset category;
a successful category records the integer extracted from the first element's
`total` tag (0 on parse irregularities — non-dict payload, missing/non-list/
empty `elements`, non-dict first element, non-integer total), a failed one
records a null count with the error text; the response is 502 exactly when
every category failed, otherwise 200 with `partial` true exactly when at
least one category failed. -/
theorem c4_availability (runQ : String → Except String Json) (bexpr : String) :
    ((availabilityRespond runQ bexpr).status = 502 ↔
      ∀ kf ∈ OSM_DATASETS, isErr (runQ (availQuery kf.2 bexpr)) = true)
    ∧ ((∃ kf ∈ OSM_DATASETS, isErr (runQ (availQuery kf.2 bexpr)) = false) →
        (availabilityRespond runQ bexpr).status = 200 ∧
        (availabilityRespond runQ bexpr).body =
          .avail (availabilityDatasets runQ bexpr)
            (decide (∃ kf ∈ OSM_DATASETS, isErr (runQ (availQuery kf.2 bexpr)) = true)))
    ∧ (availabilityDatasets runQ bexpr).length = OSM_DATASETS.length
    ∧ (∀ kf ∈ OSM_DATASETS, ∀ j, runQ (availQuery kf.2 bexpr) = .ok j →
        (⟨kf.1, some (extractOverpassCount j), none⟩ : DatasetEntry) ∈
          availabilityDatasets runQ bexpr)
    ∧ (∀ kf ∈ OSM_DATASETS, ∀ e, runQ (availQuery kf.2 bexpr) = .error e →
        (⟨kf.1, none, some e⟩ : DatasetEntry) ∈ availabilityDatasets runQ bexpr)
    ∧ extractOverpassCount (Json.num 5) = 0
    ∧ extractOverpassCount (.obj []) = 0
    ∧ extractOverpassCount (.obj [("elements", .num 1)]) = 0
    ∧ extractOverpassCount (.obj [("elements", .arr [])]) = 0
    ∧ extractOverpassCount (.obj [("elements", .arr [.num 1])]) = 0
    ∧ extractOverpassCount
        (.obj [("elements", .arr [.obj [("tags", .obj [("total", .str "abc")])]])]) = 0
    ∧ extractOverpassCount
        (.obj [("elements", .arr [.obj [("tags", .obj [("total", .num 7)])]])]) = 7 := by
  refine ⟨?_, ?_, by simp [availabilityDatasets], ?_, ?_,
    rfl, rfl, rfl, rfl, rfl, rfl, rfl⟩
  · rw [availabilityRespond_status]
    by_cases h :
        ((availabilityDatasets runQ bexpr).filter (fun d => d.count.isSome)).length = 0
    · simp only [h, if_true]
      exact (iff_true_intro ((availAllFail_iff runQ bexpr).mp h)).symm.trans (by simp)
    · simp only [h, if_false]
      constructor
      · intro hc
        omega
      · intro hall
        exact absurd ((availAllFail_iff runQ bexpr).mpr hall) h
  · intro hex
    have h : ((availabilityDatasets runQ bexpr).filter (fun d => d.count.isSome)).length ≠ 0 := by
      intro h0
      obtain ⟨kf, hkf, hq⟩ := hex
      have := (availAllFail_iff runQ bexpr).mp h0 kf hkf
      rw [hq] at this
      cases this
    constructor
    · rw [availabilityRespond_status]
      simp [h]
    · rw [availabilityRespond_body_of_ne runQ bexpr h]
      congr 1
      exact decide_eq_decide.mpr (availSome_iff runQ bexpr)
  · intro kf hkf j hj
    have he : availEntry runQ bexpr kf = ⟨kf.1, some (extractOverpassCount j), none⟩ := by
      unfold availEntry
      rw [hj]
    exact he ▸ List.mem_map_of_mem (availEntry runQ bexpr) hkf
  · intro kf hkf e hj
    have he : availEntry runQ bexpr kf = ⟨kf.1, none, some e⟩ := by
      unfold availEntry
      rw [hj]
    exact he ▸ List.mem_map_of_mem (availEntry runQ bexpr) hkf

/-- A one-success-four-failures world for the C4 witness. -/
def availStubRunQ : String → Except String Json := fun q =>
  if q = availQuery "way[\"highway\"]" "0.0,1.0,2.0,3.0" then
    .ok (.obj [("elements", .arr [.obj [("tags", .obj [("total", .num 7)])]])])
  else
    .error "down"

/-- Witness for C4: with one category succeeding and the rest failing, the
response is 200 with `partial = true`. -/
theorem c4_availability_witness :
    (availabilityRespond availStubRunQ "0.0,1.0,2.0,3.0").status = 200 ∧
    (availabilityRespond availStubRunQ "0.0,1.0,2.0,3.0").body =
      .avail (availabilityDatasets availStubRunQ "0.0,1.0,2.0,3.0")
        (decide (∃ kf ∈ OSM_DATASETS,
          isErr (availStubRunQ (availQuery kf.2 "0.0,1.0,2.0,3.0")) = true)) :=
  (c4_availability availStubRunQ "0.0,1.0,2.0,3.0").2.1
    ⟨("roads", "way[\"highway\"]"), by decide, by decide⟩

/-! ## Claim C6 — bounding-box serialization order -/

/-- C6: whenever `osm_query`'s validation accepts a bounding box
`[minLon, minLat, maxLon, maxLat]`, the availability branch runs on exactly
the serialized expression, and every generated Overpass query (count and
geometry alike) embeds the four values reordered as south,west,north,east,
i.e. `minLat,minLon,maxLat,maxLon`. -/
theorem c6_bbox_ordering (bv : Json) (minLon minLat maxLon maxLat : Int)
    (h : validateBbox bv = .ok (minLon, minLat, maxLon, maxLat)) :
    (∀ (runQ : String → Except String Json) (cats : Json),
      osmQueryCore runQ "availability" bv cats =
        availabilityRespond runQ (bboxExprOf minLon minLat maxLon maxLat))
    ∧ ∀ kf ∈ OSM_DATASETS,
      (∃ p q, availQuery kf.2 (bboxExprOf minLon minLat maxLon maxLat) =
        p ++ (floatStr minLat ++ "," ++ floatStr minLon ++ "," ++
              floatStr maxLat ++ "," ++ floatStr maxLon) ++ q)
      ∧ (∃ p q, fetchQuery kf.2 (bboxExprOf minLon minLat maxLon maxLat) =
        p ++ (floatStr minLat ++ "," ++ floatStr minLon ++ "," ++
              floatStr maxLat ++ "," ++ floatStr maxLon) ++ q) := by
  constructor
  · intro runQ cats
    unfold osmQueryCore
    rw [h]
    rfl
  · intro kf _
    constructor
    · refine ⟨"[out:json][timeout:25];(" ++ kf.2 ++ "(", "););out count;", ?_⟩
      simp [availQuery, bboxExprOf, String.append_assoc]
    · refine ⟨"[out:json][timeout:50];(" ++ kf.2 ++ "(", "););out body geom;", ?_⟩
      simp [fetchQuery, bboxExprOf, String.append_assoc]

/-- Witness for C6: the accepted bbox `[0, 1, 2, 3]` and the roads category. -/
theorem c6_bbox_ordering_witness :
    (∃ p q, availQuery "way[\"highway\"]" (bboxExprOf 0 1 2 3) =
      p ++ (floatStr 1 ++ "," ++ floatStr 0 ++ "," ++
            floatStr 3 ++ "," ++ floatStr 2) ++ q)
    ∧ (∃ p q, fetchQuery "way[\"highway\"]" (bboxExprOf 0 1 2 3) =
      p ++ (floatStr 1 ++ "," ++ floatStr 0 ++ "," ++
            floatStr 3 ++ "," ++ floatStr 2) ++ q) :=
  (c6_bbox_ordering (.arr [.num 0, .num 1, .num 2, .num 3]) 0 1 2 3 (by rfl)).2
    ("roads", "way[\"highway\"]") (by decide)

/-! ## Claim C10 — mode defaulting and normalization -/

theorem pyGet_map_set_self (kvs : List (String × Json)) (k : String) (v : Json)
    (h : kvs.any (fun p => p.1 == k) = true) :
    pyGet (kvs.map (fun p => if p.1 == k then (k, v) else p)) k = v := by
  induction kvs with
  | nil => simp at h
  | cons p rest ih =>
    by_cases hp : p.1 == k
    · have hpk : p.1 = k := by simpa using hp
      simp [pyGet, List.find?, hpk]
    · have h' : rest.any (fun q => q.1 == k) = true := by
        simpa [List.any_cons, hp] using h
      simpa [pyGet, List.find?, hp] using ih h'

theorem pyGet_append_self (kvs : List (String × Json)) (k : String) (v : Json)
    (h : kvs.any (fun p => p.1 == k) = false) :
    pyGet (kvs ++ [(k, v)]) k = v := by
  induction kvs with
  | nil => simp [pyGet]
  | cons p rest ih =>
    have hp : (p.1 == k) = false := by
      rcases List.any_eq_false.mp h p (by simp) with hp
      simpa using hp
    have h' : rest.any (fun q => q.1 == k) = false := by
      apply List.any_eq_false.mpr
      intro q hq
      exact List.any_eq_false.mp h q (by simp [hq])
    simpa [pyGet, List.find?, hp] using ih h'

theorem pyGet_setAssoc_self (kvs : List (String × Json)) (k : String) (v : Json) :
    pyGet (setAssoc kvs k v) k = v := by
  unfold setAssoc
  by_cases h : kvs.any (fun p => p.1 == k)
  · rw [if_pos h]
    exact pyGet_map_set_self kvs k v h
  · rw [if_neg h]
    exact pyGet_append_self kvs k v (by simp only [Bool.not_eq_true] at h; exact h)

theorem pyGet_map_set_ne (kvs : List (String × Json)) (k : String) (v : Json)
    (k' : String) (hk : (k' == k) = false) :
    pyGet (kvs.map (fun p => if p.1 == k then (k, v) else p)) k' = pyGet kvs k' := by
  induction kvs with
  | nil => rfl
  | cons p rest ih =>
    by_cases hp : p.1 == k
    · have hpk : p.1 = k := by simpa using hp
      have hkk' : (k == k') = false := by
        rw [beq_eq_false_iff_ne] at hk ⊢
        exact fun hc => hk hc.symm
      have hpk' : (p.1 == k') = false := by
        rw [hpk]
        exact hkk'
      simpa [pyGet, List.find?, hp, hkk', hpk'] using ih
    · by_cases hq : p.1 == k'
      · simp [pyGet, List.find?, hp, hq]
      · simpa [pyGet, List.find?, hp, hq] using ih

theorem pyGet_append_ne (kvs : List (String × Json)) (k : String) (v : Json)
    (k' : String) (hk : (k' == k) = false) :
    pyGet (kvs ++ [(k, v)]) k' = pyGet kvs k' := by
  induction kvs with
  | nil =>
    have hkk' : (k == k') = false := by
      rw [beq_eq_false_iff_ne] at hk ⊢
      exact fun hc => hk hc.symm
    simp [pyGet, List.find?, hkk']
  | cons p rest ih =>
    by_cases hq : p.1 == k'
    · simp [pyGet, List.find?, hq]
    · simpa [pyGet, List.find?, hq] using ih

theorem pyGet_setAssoc_ne (kvs : List (String × Json)) (k : String) (v : Json)
    (k' : String) (hk : (k' == k) = false) :
    pyGet (setAssoc kvs k v) k' = pyGet kvs k' := by
  unfold setAssoc
  by_cases h : kvs.any (fun p => p.1 == k)
  · rw [if_pos h]
    exact pyGet_map_set_ne kvs k v k' hk
  · rw [if_neg h]
    exact pyGet_append_ne kvs k v k' hk

theorem osmMode_eq (payload : List (String × Json)) :
    osmMode payload =
      pyLower (pyStrip (if pyFalsy (pyGet payload "mode") = true
        then "availability" else pyStr (pyGet payload "mode"))) := rfl

/-- C10: a POST body whose `mode` field is absent, null, empty, or otherwise
falsy makes `osm_query` behave exactly as if the mode were `"availability"`;
mode matching is insensitive to surrounding whitespace and letter case — a
mode string normalizing to `"fetch"` behaves exactly like `"fetch"`, and in
particular the derived mode of a body with `mode = " FETCH "` is `"fetch"`. -/
theorem c10_mode_normalization (runQ : String → Except String Json)
    (payload : List (String × Json)) :
    (pyFalsy (pyGet payload "mode") = true →
      osmQuery runQ (.obj payload) =
        osmQuery runQ (.obj (setAssoc payload "mode" (.str "availability"))))
    ∧ (∀ s, pyGet payload "mode" = .str s → pyLower (pyStrip s) = "fetch" →
        osmQuery runQ (.obj payload) =
          osmQuery runQ (.obj (setAssoc payload "mode" (.str "fetch"))))
    ∧ osmMode (setAssoc payload "mode" (.str " FETCH ")) = "fetch" := by
  have hbbox : ∀ v, pyGet (setAssoc payload "mode" v) "bbox" = pyGet payload "bbox" :=
    fun v => pyGet_setAssoc_ne payload "mode" v "bbox" (by decide)
  have hcats : ∀ v, pyGet (setAssoc payload "mode" v) "categories" =
      pyGet payload "categories" :=
    fun v => pyGet_setAssoc_ne payload "mode" v "categories" (by decide)
  refine ⟨?_, ?_, ?_⟩
  · intro hfalsy
    show osmQueryCore runQ (osmMode payload) (pyGet payload "bbox")
        (pyGet payload "categories") = osmQueryCore runQ _ _ _
    rw [hbbox, hcats]
    have hmode : osmMode payload = "availability" := by
      rw [osmMode_eq, hfalsy]
      rfl
    have hmode' : osmMode (setAssoc payload "mode" (.str "availability")) = "availability" := by
      rw [osmMode_eq, pyGet_setAssoc_self]
      rfl
    rw [hmode, hmode']
  · intro s hs hnorm
    show osmQueryCore runQ (osmMode payload) (pyGet payload "bbox")
        (pyGet payload "categories") = osmQueryCore runQ _ _ _
    rw [hbbox, hcats]
    have hsne : (s == "") = false := by
      rw [beq_eq_false_iff_ne]
      intro hc
      rw [hc] at hnorm
      exact absurd hnorm (by decide)
    have hmode : osmMode payload = "fetch" := by
      rw [osmMode_eq, hs]
      simp only [pyFalsy, hsne]
      exact hnorm
    have hmode' : osmMode (setAssoc payload "mode" (.str "fetch")) = "fetch" := by
      rw [osmMode_eq, pyGet_setAssoc_self]
      rfl
    rw [hmode, hmode']
  · rw [osmMode_eq, pyGet_setAssoc_self]
    rfl

/-- Witness for C10: a body with only a bbox (no `mode` key at all) behaves
as availability mode. -/
theorem c10_mode_normalization_witness :
    osmQuery (fun _ => .error "down")
        (.obj [("bbox", .arr [.num 0, .num 1, .num 2, .num 3])]) =
      osmQuery (fun _ => .error "down")
        (.obj (setAssoc [("bbox", .arr [.num 0, .num 1, .num 2, .num 3])]
          "mode" (.str "availability"))) :=
  (c10_mode_normalization (fun _ => .error "down")
    [("bbox", .arr [.num 0, .num 1, .num 2, .num 3])]).1 (by decide)

/-! ## WMS tile proxy (`bhuvan_wms_proxy`)

The upstream call's outcome is passed in explicitly.  A constructor denotes
the `except` clause the source would select (`requests` dispatches SSL errors
to the `SSLError` clause and connect/read timeouts to the clause whose type
matches first).  The response body is bytes for proxied/synthesized images
and a string for textual errors. -/

inductive RespBody where
  | bytes (bs : List Nat)
  | text (s : String)

structure HttpResp where
  status : Nat
  contentType : String
  body : RespBody
  headers : List (String × String)

inductive WmsOutcome where
  | resp (status : Nat) (contentType : String) (content : List Nat) (text : String)
  | sslError (msg : String)
  | connError (msg : String)
  | timeoutError (msg : String)
  | otherError (msg : String)

/-- `_transparent_tile_response`: synthesized tile at the requested size,
status 200, plus the `X-Proxy-WMS-Error` diagnostic header when an upstream
status is given. -/
def transparentTileResponse (deflate : List Nat → List Nat)
    (params : List (String × String)) (upstreamStatus : Option Nat) : HttpResp :=
  let wh := getTileSize params 256
  { status := 200
    contentType := "image/png"
    body := .bytes (makeTransparentPng deflate wh.1 wh.2)
    headers :=
      match upstreamStatus with
      | some s => [("X-Proxy-WMS-Error", "Bhuvan " ++ toString s)]
      | none => [] }

/-- The outcome-classification half of `bhuvan_wms_proxy` (lines 703-755):
HTTP 200 proxied verbatim; any failure becomes a transparent tile for GETMAP
requests and a mapped text/plain error otherwise. -/
def bhuvanWmsRespond (deflate : List Nat → List Nat)
    (params : List (String × String)) (o : WmsOutcome) : HttpResp :=
  match o with
  | .resp status ct content text =>
    if status = 200 then
      { status := 200, contentType := ct, body := .bytes content, headers := [] }
    else
      let errorMsg := if text ≠ "" then text.take 300 else "HTTP " ++ toString status
      if getRequestType params = "GETMAP" then
        transparentTileResponse deflate params (some status)
      else
        { status := status, contentType := "text/plain"
          body := .text ("Bhuvan WMS Error " ++ toString status ++ ": " ++ errorMsg)
          headers := [] }
  | .sslError _ =>
    if getRequestType params = "GETMAP" then
      transparentTileResponse deflate params (some 502)
    else
      { status := 502, contentType := "text/plain"
        body := .text "SSL connection error with Bhuvan server. Please try again later."
        headers := [] }
  | .connError _ =>
    if getRequestType params = "GETMAP" then
      transparentTileResponse deflate params (some 502)
    else
      { status := 502, contentType := "text/plain"
        body := .text "Could not connect to Bhuvan WMS server. Please ensure the Bhuvan service is accessible."
        headers := [] }
  | .timeoutError _ =>
    if getRequestType params = "GETMAP" then
      transparentTileResponse deflate params (some 504)
    else
      { status := 504, contentType := "text/plain"
        body := .text "Request to Bhuvan WMS server timed out."
        headers := [] }
  | .otherError msg =>
    if getRequestType params = "GETMAP" then
      transparentTileResponse deflate params (some 500)
    else
      { status := 500, contentType := "text/plain"
        body := .text ("Unexpected error: " ++ msg)
        headers := [] }

/-- The status the claim's failure mapping assigns to an outcome (`none` for
the HTTP-200 success outcome, which is not a failure). -/
def wmsFailStatus : WmsOutcome → Option Nat
  | .resp status _ _ _ => if status = 200 then none else some status
  | .sslError _ => some 502
  | .connError _ => some 502
  | .timeoutError _ => some 504
  | .otherError _ => some 500

/-! ## Claim C1 — WMS failure handling -/

/-- C1: for every failing upstream outcome, a GETMAP request gets a
synthesized transparent PNG tile, HTTP 200, and the `X-Proxy-WMS-Error:
Bhuvan <status>` diagnostic header; any other request type gets a text/plain
body whose status is the upstream status for an upstream HTTP error, 502 for
an SSL or connection error, 504 for a timeout, and 500 for any other
exception. -/
theorem c1_wms_failure_handling (deflate : List Nat → List Nat)
    (params : List (String × String)) (o : WmsOutcome) (s : Nat)
    (hfail : wmsFailStatus o = some s) :
    (getRequestType params = "GETMAP" →
      (bhuvanWmsRespond deflate params o).status = 200 ∧
      (bhuvanWmsRespond deflate params o).contentType = "image/png" ∧
      (bhuvanWmsRespond deflate params o).body =
        .bytes (makeTransparentPng deflate
          (getTileSize params 256).1 (getTileSize params 256).2) ∧
      (bhuvanWmsRespond deflate params o).headers =
        [("X-Proxy-WMS-Error", "Bhuvan " ++ toString s)])
    ∧ (getRequestType params ≠ "GETMAP" →
      (bhuvanWmsRespond deflate params o).status = s ∧
      (bhuvanWmsRespond deflate params o).contentType = "text/plain" ∧
      ∃ t, (bhuvanWmsRespond deflate params o).body = .text t) := by
  constructor
  · intro hmap
    cases o with
    | resp status ct content text =>
      have hs : ¬ status = 200 := by
        intro hc
        rw [hc] at hfail
        simp [wmsFailStatus] at hfail
      have hss : status = s := by
        simp [wmsFailStatus, hs] at hfail
        exact hfail
      subst hss
      simp [bhuvanWmsRespond, hs, hmap, transparentTileResponse]
    | sslError m =>
      simp [wmsFailStatus] at hfail
      simp [bhuvanWmsRespond, hmap, transparentTileResponse, hfail]
    | connError m =>
      simp [wmsFailStatus] at hfail
      simp [bhuvanWmsRespond, hmap, transparentTileResponse, hfail]
    | timeoutError m =>
      simp [wmsFailStatus] at hfail
      simp [bhuvanWmsRespond, hmap, transparentTileResponse, hfail]
    | otherError m =>
      simp [wmsFailStatus] at hfail
      simp [bhuvanWmsRespond, hmap, transparentTileResponse, hfail]
  · intro hmap
    cases o with
    | resp status ct content text =>
      have hs : ¬ status = 200 := by
        intro hc
        rw [hc] at hfail
        simp [wmsFailStatus] at hfail
      have hss : status = s := by
        simp [wmsFailStatus, hs] at hfail
        exact hfail
      subst hss
      refine ⟨?_, ?_, ?_⟩ <;> simp [bhuvanWmsRespond, hs, hmap]
    | sslError m =>
      simp [wmsFailStatus] at hfail
      refine ⟨?_, ?_, ?_⟩ <;> simp [bhuvanWmsRespond, hmap, hfail]
    | connError m =>
      simp [wmsFailStatus] at hfail
      refine ⟨?_, ?_, ?_⟩ <;> simp [bhuvanWmsRespond, hmap, hfail]
    | timeoutError m =>
      simp [wmsFailStatus] at hfail
      refine ⟨?_, ?_, ?_⟩ <;> simp [bhuvanWmsRespond, hmap, hfail]
    | otherError m =>
      simp [wmsFailStatus] at hfail
      refine ⟨?_, ?_, ?_⟩ <;> simp [bhuvanWmsRespond, hmap, hfail]

/-- Witness for C1: a GETMAP request hitting an upstream timeout yields a
200 transparent tile with the diagnostic header `Bhuvan 504`. -/
theorem c1_wms_failure_handling_witness :
    (bhuvanWmsRespond (fun bs => bs) [("REQUEST", "GetMap")]
        (.timeoutError "read timed out")).status = 200 ∧
    (bhuvanWmsRespond (fun bs => bs) [("REQUEST", "GetMap")]
        (.timeoutError "read timed out")).contentType = "image/png" ∧
    (bhuvanWmsRespond (fun bs => bs) [("REQUEST", "GetMap")]
        (.timeoutError "read timed out")).body =
      .bytes (makeTransparentPng (fun bs => bs)
        (getTileSize [("REQUEST", "GetMap")] 256).1
        (getTileSize [("REQUEST", "GetMap")] 256).2) ∧
    (bhuvanWmsRespond (fun bs => bs) [("REQUEST", "GetMap")]
        (.timeoutError "read timed out")).headers =
      [("X-Proxy-WMS-Error", "Bhuvan " ++ toString 504)] :=
  (c1_wms_failure_handling (fun bs => bs) [("REQUEST", "GetMap")]
    (.timeoutError "read timed out") 504 rfl).1 (by decide)

end GeoWebApps
